import Mathlib

/-!
# Verification of the conversation-orchestration core of a restaurant AI service

This file gives a shallow embedding, in Lean 4, of the core logic of the
AI service of a restaurant management system:

* the Whisper-transcription hallucination filter
  (`app/services/voice_service.py`),
* the voice transcription wrapper (`VoiceService.transcribe`),
* the supervisor routing decode and route semantics
  (`app/agents/graph.py`, `supervisor_node` / `route_supervisor`),
* the bounded specialist tool loop (`reservation_node`, `info_node`,
  and the internal `assistant_node`),
* session history replay and the turn orchestrator
  (`app/services/conversation_service.py`),
* the reservation-creation overlap check
  (`app/agents/tools/reservation_tools.py`, `create_reservation`).

Modelling conventions: Python strings are `List Char` where character-level
operations (strip / lower / regex classes) matter, and `String` elsewhere.
The completion backend, `json.loads`, and the database are external
collaborators and are modelled as explicit parameters or explicit state.
Python's Unicode-aware `str.lower` / `str.strip` / the `\w` class are
modelled at ASCII granularity, which covers the whole content of the
denylists.

The file lists all definitions first, then the supporting lemmas and the
claim theorems.
-/

namespace RestaurantAI

/-! ## Python string primitives (ASCII model) -/

/-- Characters Python's `str.strip()` removes (ASCII whitespace). -/
def pyIsSpace (c : Char) : Bool :=
  c == ' ' || c == '\t' || c == '\n' || c == '\r' ||
    c == Char.ofNat 11 || c == Char.ofNat 12

/-- ASCII model of Python's per-character `str.lower()`. -/
def pyLowerChar (c : Char) : Char :=
  if 65 ≤ c.toNat ∧ c.toNat ≤ 90 then Char.ofNat (c.toNat + 32) else c

/-- Model of `str.lower()`. -/
def pyLower (s : List Char) : List Char := s.map pyLowerChar

/-- Drop elements satisfying `p` from the right end of a list. -/
def rdropW {α : Type} (p : α → Bool) (l : List α) : List α :=
  (l.reverse.dropWhile p).reverse

/-- Model of Python's `str.strip()`: remove leading and trailing
whitespace. -/
def pyStrip (s : List Char) : List Char :=
  rdropW pyIsSpace (s.dropWhile pyIsSpace)

/-- Model of Python's `str.rstrip(".")`: remove trailing dots. -/
def rstripDots (s : List Char) : List Char :=
  rdropW (fun c => c == '.') s

/-- Normalisation applied by `is_hallucination`:
`text.strip().lower().rstrip(".")`. -/
def pyNormalize (s : List Char) : List Char :=
  rstripDots (pyLower (pyStrip s))

/-! ## Hallucination denylists (from `voice_service.py`) -/

/-- Exact matches (lowercased, stripped of trailing periods) that Whisper
produces on silence/noise (`HALLUCINATION_EXACT`). -/
def HALLUCINATION_EXACT : List (List Char) :=
  ([ "thank you", "thanks", "thanks for watching", "subscribe",
     "like and subscribe", "thank you for watching", "thanks for listening",
     "thank you for listening", "you", "bye", "bye bye", "bye-bye",
     "goodbye", "okay", "ok", "so", "uh", "um", "hmm", "hm", "ah", "oh",
     "yeah", "yes", "no", "the end", "...", ".", "", "you're welcome",
     "silence", "applause", "music", "laughter",
     "this is a phone call", "the caller speaks english",
     "caller speaks english", "the caller speaks english.", "english",
     "phone call", "restaurant reservation phone call",
     "restaurant reservation",
     "i'm going to go ahead and do that", "i'll be right back",
     "let me check", "one moment please", "have a good day",
     "have a nice day", "have a great day", "take care", "see you later",
     "see you soon", "that's it", "that's all", "the following",
     "in this video", "hello", "hi", "hey" ] : List String).map String.data

/-- Substring patterns: if the transcription contains any of these it is
treated as a hallucination (`HALLUCINATION_SUBSTRINGS`). -/
def HALLUCINATION_SUBSTRINGS : List (List Char) :=
  ([ "thank you for watching", "thanks for watching", "like and subscribe",
     "subscribe to", "please subscribe", "check out the", "see you next",
     "see you in the next", "this is a phone call to", "the caller speaks",
     "caller speaks english", "subtitles by", "captions by",
     "translated by", "transcribed by", "copyright", "all rights reserved",
     "the previous", "restaurant reservation phone call",
     "in this episode", "in this video", "don't forget to", "hit the bell",
     "notification" ] : List String).map String.data

/-! ## Regex classes of `HALLUCINATION_REGEX` (ASCII model)

Each Python pattern is applied with `pat.match(text.strip())`, i.e. anchored
at the start; `$` anchors are reflected by full-string checks below. -/

/-- Model of Python `\w` at ASCII granularity. -/
def isWordChar (c : Char) : Bool :=
  decide ((97 ≤ c.toNat ∧ c.toNat ≤ 122) ∨ (65 ≤ c.toNat ∧ c.toNat ≤ 90) ∨
    (48 ≤ c.toNat ∧ c.toNat ≤ 57)) || c == '_'

/-- Model of the class `[\w\s]` at ASCII granularity. -/
def wordOrSpace (c : Char) : Bool := isWordChar c || pyIsSpace c

/-- Pattern `^\W+$`: only punctuation/symbols. -/
def regexNonWord (u : List Char) : Bool :=
  !u.isEmpty && u.all (fun c => !isWordChar c)

/-- Pattern `^(\.\x7b2,\x7d|…+)$`: just dots (two or more) or just ellipsis
characters. -/
def regexDots (u : List Char) : Bool :=
  (decide (2 ≤ u.length) && u.all (fun c => c == '.')) ||
  (!u.isEmpty && u.all (fun c => c == '…'))

/-- Pattern `^[\s\W]*$`: whitespace/symbols only. -/
def regexWsSymbols (u : List Char) : Bool :=
  u.all (fun c => pyIsSpace c || !isWordChar c)

/-- Remove a literal prefix, if present. -/
def dropPfx? (pfx l : List Char) : Option (List Char) :=
  if pfx.isPrefixOf l then some (l.drop pfx.length) else none

/-- Remove a literal suffix, if present. -/
def dropSfx? (sfx l : List Char) : Option (List Char) :=
  if sfx.isSuffixOf l then some (l.take (l.length - sfx.length)) else none

/-- Pattern `^this is [\w\s]+ bell\.?$` with `re.I`. -/
def regexThisIsBell (u : List Char) : Bool :=
  let l := pyLower u
  let l2 := match dropSfx? ['.'] l with | some x => x | none => l
  match dropPfx? "this is ".data l2 with
  | none => false
  | some rest =>
    match dropSfx? " bell".data rest with
    | none => false
    | some mid => !mid.isEmpty && mid.all wordOrSpace

/-- Pattern `^my name is [\w\s]+\.?$` with `re.I`. -/
def regexMyNameIs (u : List Char) : Bool :=
  let l := pyLower u
  let l2 := match dropSfx? ['.'] l with | some x => x | none => l
  match dropPfx? "my name is ".data l2 with
  | none => false
  | some mid => !mid.isEmpty && mid.all wordOrSpace

/-- Strip one optional `.` or `!`. -/
def dropPunct (l : List Char) : List Char :=
  match l with
  | c :: t => if c == '.' || c == '!' then t else l
  | [] => l

/-- Pattern `^that'?s it for now[\.\!]?\s*(have a|bye|good)` with `re.I`
(note: no `$`, so a prefix match suffices). -/
def regexThatsIt (u : List Char) : Bool :=
  let l := pyLower u
  let rest0 :=
    match dropPfx? "that's it for now".data l with
    | some r => some r
    | none => dropPfx? "thats it for now".data l
  match rest0 with
  | none => false
  | some r =>
    let r2 := (dropPunct r).dropWhile pyIsSpace
    "have a".data.isPrefixOf r2 || "bye".data.isPrefixOf r2 ||
      "good".data.isPrefixOf r2

/-- One repetition of
`have a (great|good|nice|wonderful) (day|one|evening)[\.\!]?\s*`. -/
def haveAUnit (l : List Char) : Option (List Char) :=
  match dropPfx? "have a ".data l with
  | none => none
  | some r =>
    match ([ "great ", "good ", "nice ", "wonderful " ] : List String).findSome?
        (fun a => dropPfx? a.data r) with
    | none => none
    | some r2 =>
      match ([ "day", "one", "evening" ] : List String).findSome?
          (fun w => dropPfx? w.data r2) with
      | none => none
      | some r3 => some ((dropPunct r3).dropWhile pyIsSpace)

/-- Pattern
`^(have a (great|good|nice|wonderful) (day|one|evening)[\.\!]?\s*)\x7b1,2\x7d$`
with `re.I`. -/
def regexHaveADay (u : List Char) : Bool :=
  match haveAUnit (pyLower u) with
  | none => false
  | some r1 =>
    r1.isEmpty ||
      (match haveAUnit r1 with
       | none => false
       | some r2 => r2.isEmpty)

/-- Disjunction of the `HALLUCINATION_REGEX` patterns, applied (as in the
source) to the stripped original text. -/
def regexAny (u : List Char) : Bool :=
  regexNonWord u || regexDots u || regexWsSymbols u || regexThisIsBell u ||
    regexMyNameIs u || regexThatsIt u || regexHaveADay u

/-- Model of Python's `sub in t` substring test. -/
def containsSub (sub : List Char) : List Char → Bool
  | [] => sub.isEmpty
  | c :: t => sub.isPrefixOf (c :: t) || containsSub sub t

/-- Function `is_hallucination(text)` from `voice_service.py`: in order,
the exact-match denylist on the normalised text, the length cutoff (≤ 3),
the substring denylist, then the regex classes on the stripped text. -/
def is_hallucination (s : List Char) : Bool :=
  if HALLUCINATION_EXACT.contains (pyNormalize s) then true
  else if (pyNormalize s).length ≤ 3 then true
  else if HALLUCINATION_SUBSTRINGS.any
      (fun sub => containsSub sub (pyNormalize s)) then true
  else regexAny (pyStrip s)

/-- Boolean guard on an optional head/last character: not whitespace. -/
def notSpaceOpt : Option Char → Bool
  | some c => !pyIsSpace c
  | none => true

/-- Boolean guard on an optional last character: not a dot. -/
def notDotOpt : Option Char → Bool
  | some c => !(c == '.')
  | none => true

/-- Facts about one substring-denylist entry needed for the substring
claim: non-empty, no whitespace at either end, fixed by lowercasing, and
not ending in a dot. -/
def goodEntry (e : List Char) : Bool :=
  !e.isEmpty && notSpaceOpt e.head? && notSpaceOpt e.getLast? &&
    (pyLower e == e) && notDotOpt e.getLast?

/-! ## `VoiceService.transcribe` -/

/-- Constant `VoiceService.DEFAULT_LANGUAGE`. -/
def DEFAULT_LANGUAGE : String := "en"

/-- Raw transcription response of the Whisper backend (the backend may
also report a detected language; the code never reads it). -/
structure WhisperResp where
  text : List Char
  detected : String

/-- Result dict of `VoiceService.transcribe`. -/
structure TranscriptionOut where
  text : List Char
  language : String

/-- Method `VoiceService.transcribe`: forces the language
(`language or DEFAULT_LANGUAGE`, so an empty/absent argument falls back to
"en"), strips the backend text, and blanks it when the hallucination
filter fires. -/
def transcribe (resp : WhisperResp) (language : Option String) :
    TranscriptionOut :=
  let forced := match language with
    | some l => if l = "" then DEFAULT_LANGUAGE else l
    | none => DEFAULT_LANGUAGE
  let t := pyStrip resp.text
  ⟨if is_hallucination t then [] else t, forced⟩

/-! ## The specialist ReAct loop (`reservation_node` / `info_node` /
internal `assistant_node`)

The completion backend is modelled as an oracle giving, for each completion
call issued during one node activation, the response content and the list
of requested tool calls.  A registered tool is a function from its (opaque)
argument blob to `Except` — `.error` models a raised exception. -/

/-- One requested tool call, as produced by the model. -/
structure ToolCall where
  name : String
  args : String
  id : String
deriving DecidableEq

/-- One completion-backend response. -/
structure LLMResp where
  content : String
  toolCalls : List ToolCall

/-- Working-history messages of the agent graph. -/
inductive GMsg
  | human (content : String)
  | ai (content : String) (toolCalls : List ToolCall)
  | sysm (content : String)
  | tool (content : String) (callId : String)
deriving DecidableEq

/-- Bound tool map (`all_tools` / `tool_map`): tool name ↦
implementation. -/
def ToolReg : Type := List (String × (String → Except String String))

/-- Body of the per-tool-call dispatch inside the loop: unknown names give
a textual "Unknown tool" result, a raising implementation gives a textual
"Error executing" result; the Bool says whether the name is recorded into
`tools_used`. -/
def dispatch_one (tools : ToolReg) (tc : ToolCall) : String × Bool :=
  match List.lookup tc.name tools with
  | none => ("Unknown tool: " ++ tc.name, false)
  | some f =>
    match f tc.args with
    | .ok r => (r, true)
    | .error e => ("Error executing " ++ tc.name ++ ": " ++ e, false)

/-- Loop `for tool_call in response.tool_calls`: dispatch sequentially,
append each result as a tool message, record successful registered names. -/
def process_tool_calls (tools : ToolReg) :
    List ToolCall → List GMsg → List String → List GMsg × List String
  | [], msgs, used => (msgs, used)
  | tc :: rest, msgs, used =>
    let r := dispatch_one tools tc
    process_tool_calls tools rest (msgs ++ [GMsg.tool r.1 tc.id])
      (if r.2 then used ++ [tc.name] else used)

/-- Result of one specialist-node activation. -/
structure LoopRes where
  reply : String
  calls : Nat
  used : List String
  msgs : List GMsg

/-- Bounded ReAct loop shared by `reservation_node` (ceiling 5),
`info_node` (ceiling 3) and the internal `assistant_node` (ceiling 6):
up to `fuel` completion calls that may request tools, then — if the
ceiling is exhausted — one final completion call without tools whose
content is the reply.  `k` counts completion calls already issued. -/
def specialist_loop (oracle : Nat → LLMResp) (tools : ToolReg) :
    Nat → Nat → List GMsg → List String → LoopRes
  | 0, k, msgs, used =>
    let r := oracle k
    ⟨r.content, k + 1, used, msgs ++ [GMsg.ai r.content []]⟩
  | fuel + 1, k, msgs, used =>
    let r := oracle k
    if r.toolCalls.isEmpty then
      ⟨r.content, k + 1, used, msgs ++ [GMsg.ai r.content []]⟩
    else
      let msgs1 := msgs ++ [GMsg.ai r.content r.toolCalls]
      let pr := process_tool_calls tools r.toolCalls msgs1 used
      specialist_loop oracle tools fuel (k + 1) pr.1 pr.2

/-- Constant `max_iterations = 5` in `reservation_node`. -/
def reservation_max_iterations : Nat := 5

/-- Constant `max_iterations = 3` in `info_node`. -/
def info_max_iterations : Nat := 3

/-- Constant `max_iterations = 6` in the internal `assistant_node`. -/
def internal_max_iterations : Nat := 6

/-- Completion backend that answers with empty text and no tool calls. -/
def emptyOracle : Nat → LLMResp := fun _ => ⟨"", []⟩

/-- Completion backend that always answers "All set!". -/
def okOracle : Nat → LLMResp := fun _ => ⟨"All set!", []⟩

/-- Demo tool that succeeds. -/
def demoEcho : String → Except String String := fun a => .ok ("Echo: " ++ a)

/-- Demo tool that raises. -/
def demoBoom : String → Except String String := fun _ => .error "boom"

/-- Demo registry with one succeeding and one raising tool. -/
def demoTools : ToolReg := [("echo", demoEcho), ("boom", demoBoom)]

/-- Backend that requests the echo tool once, then answers. -/
def demoOracle : Nat → LLMResp := fun k =>
  if k = 0 then ⟨"", [⟨"echo", "hi", "1"⟩]⟩ else ⟨"done", []⟩

/-! ## Supervisor routing (`supervisor_node`)

The supervisor's forced structured decision is a tool call whose arguments
may carry `route` and `message`; `args.get(k, default)` is modelled with
`Option`.  `json.loads` of the brace-delimited fragment is an external
library call, modelled as a parameter returning the `route`/`message`
fields of the parsed object (or `none` when parsing raises). -/

/-- Arguments of the supervisor's `route_call` tool call, after
`args.get`. -/
structure SupArgs where
  route : Option String
  message : Option String

/-- One supervisor completion response. -/
structure SupResp where
  toolCalls : List SupArgs
  content : String

/-- Fields of a decoded JSON object, after `parsed.get`. -/
structure JsonObj where
  route : Option String
  message : Option String

/-- Decoded routing decision. -/
structure RoutingDecision where
  route : String
  message : String
deriving DecidableEq

/-- Leftmost match of the Python pattern `\x7b[^\x7d]+\x7d` (an opening
brace, one or more non-closing-brace characters, a closing brace). -/
def braceSearch : List Char → Option (List Char)
  | [] => none
  | c :: rest =>
    if c == '\x7b' then
      let run := rest.takeWhile (fun x => !(x == '\x7d'))
      if run.isEmpty then braceSearch rest
      else if (rest.drop run.length).head? = some '\x7d' then
        some ('\x7b' :: (run ++ ['\x7d']))
      else braceSearch rest
    else braceSearch rest

/-- Routing decode of `supervisor_node`: a structured tool-call decision is
used directly; otherwise a brace-delimited fragment of the (stripped) free
text is parsed and its fields used; otherwise `route="self"` with the text
as message. -/
def supervisor_decode (jsonLoads : List Char → Option JsonObj)
    (r : SupResp) : RoutingDecision :=
  match r.toolCalls with
  | tc :: _ => ⟨tc.route.getD "self", tc.message.getD ""⟩
  | [] =>
    if r.content = "" then ⟨"self", ""⟩
    else
      let content := pyStrip r.content.data
      match braceSearch content with
      | some m =>
        match jsonLoads m with
        | some obj =>
          ⟨obj.route.getD "self", obj.message.getD (String.mk content)⟩
        | none => ⟨"self", String.mk content⟩
      | none => ⟨"self", String.mk content⟩

/-- Specification-side three-stage decoder chain (spec §4.2), written as
stated there: structured decision first, then best-effort JSON extraction,
then the `self` default with the full text. -/
def spec_router_decode (jsonLoads : List Char → Option JsonObj)
    (r : SupResp) : RoutingDecision :=
  match r.toolCalls.head? with
  | some tc => ⟨tc.route.getD "self", tc.message.getD ""⟩
  | none =>
    let full := String.mk (pyStrip r.content.data)
    match (braceSearch (pyStrip r.content.data)).bind jsonLoads with
    | some obj => ⟨obj.route.getD "self", obj.message.getD full⟩
    | none => ⟨"self", full⟩

/-- JSON library that always fails to parse. -/
def jlNone : List Char → Option JsonObj := fun _ => none

/-! ## Route semantics -/

/-- Default reply substituted by `supervisor_node` when the decoded
farewell message is empty (Python `message or ...`). -/
def farewell_default : String :=
  "Thank you for calling! Have a wonderful day. Goodbye!"

/-- Default reply substituted when the decoded `self` message is empty. -/
def self_default : String :=
  "Hello! Thank you for calling. How can I help you today?"

/-- State updates returned by `supervisor_node` after decoding. -/
structure SupOut where
  appended : List GMsg
  next_agent : String
  call_active : Option Bool
deriving DecidableEq

/-- Tail of `supervisor_node`: the route-dependent state update. -/
def supervisor_step (d : RoutingDecision) : SupOut :=
  if d.route = "reservation" then ⟨[], "reservation", none⟩
  else if d.route = "information" then ⟨[], "information", none⟩
  else if d.route = "farewell" then
    ⟨[GMsg.ai (if d.message = "" then farewell_default else d.message) []],
      "farewell", some false⟩
  else
    ⟨[GMsg.ai (if d.message = "" then self_default else d.message) []],
      "__end__", none⟩

/-- Function `route_supervisor`: the conditional edge out of the
supervisor node. -/
def route_supervisor (next_agent : String) : String :=
  if next_agent = "reservation" then "reservation"
  else if next_agent = "information" then "information"
  else "__end__"

/-- Outcome of one routed turn. -/
structure TurnOutcome where
  reply : String
  call_active : Bool
  specialist_invoked : Bool
deriving DecidableEq

/-- One turn of the routed graph, from a decoded routing decision: either
the supervisor's appended message ends the turn, or control passes to the
selected specialist, whose reply (`specialistReply`) becomes the turn's
reply.  `call_active` starts `true` and is overwritten only when the
supervisor sets it. -/
def run_turn (d : RoutingDecision) (specialistReply : String) : TurnOutcome :=
  let so := supervisor_step d
  if route_supervisor so.next_agent = "__end__" then
    ⟨(so.appended.filterMap (fun m => match m with
        | GMsg.ai c _ => some c
        | _ => none)).getLast?.getD "",
      so.call_active.getD true, false⟩
  else ⟨specialistReply, so.call_active.getD true, true⟩

/-! ## Session history replay

`ConversationService.get_conversation_history` runs
`SELECT role, content ... ORDER BY created_at ASC LIMIT :limit` (limit 50)
and then keeps only `user`/`assistant` rows.  A session's persisted log is
modelled as the list of its rows in `created_at` ascending order, so the
SQL `LIMIT` takes the FIRST `limit` rows of the session, not the last. -/

/-- One persisted `conversation_logs` row (in `created_at` order). -/
structure LogRow where
  role : String
  content : String
deriving DecidableEq

/-- Replay cap (`limit: int = 50`). -/
def history_limit : Nat := 50

/-- Method `ConversationService.get_conversation_history`: the first
`limit` rows of the session, restricted to `user`/`assistant` roles. -/
def get_conversation_history (rows : List LogRow) (limit : Nat) : List GMsg :=
  (rows.take limit).filterMap (fun r =>
    if r.role = "user" then some (GMsg.human r.content)
    else if r.role = "assistant" then some (GMsg.ai r.content [])
    else none)

/-- Reading stated by the claim: the LAST `limit` persisted rows,
restricted to `user`/`assistant` roles. -/
def claimed_history (rows : List LogRow) (limit : Nat) : List GMsg :=
  (rows.drop (rows.length - limit)).filterMap (fun r =>
    if r.role = "user" then some (GMsg.human r.content)
    else if r.role = "assistant" then some (GMsg.ai r.content [])
    else none)

/-- Session log of 50 old user rows followed by one new assistant row. -/
def demo_rows : List LogRow :=
  List.replicate 50 ⟨"user", "early"⟩ ++ [⟨"assistant", "latest"⟩]

/-! ## Turn orchestration and error containment

`ConversationService.chat` is modelled over an explicit database state
(committed rows plus the pending transaction) and an explicit outcome of
`graph.ainvoke` (`.error` models a raised exception); `saveOk` says whether
persisting the assistant reply succeeds. -/

/-- Database connection state: committed rows and the open transaction. -/
structure DbState where
  committed : List LogRow
  pending : List LogRow
deriving DecidableEq

/-- Method `save_message` followed by `flush`: adds a row to the open
transaction. -/
def save_message (db : DbState) (role content : String) : DbState :=
  ⟨db.committed, db.pending ++ [⟨role, content⟩]⟩

/-- Commit: makes the open transaction durable. -/
def commit_db (db : DbState) : DbState := ⟨db.committed ++ db.pending, []⟩

/-- Rollback: discards the open transaction. -/
def rollback_db (db : DbState) : DbState := ⟨db.committed, []⟩

/-- State produced by a successful `graph.ainvoke`. -/
structure GraphRes where
  msgs : List GMsg
  tools_used : List String
  call_active : Bool

/-- Dict returned by `ConversationService.chat`. -/
structure TurnResult where
  response : String
  tools_used : List String
  call_active : Bool
deriving DecidableEq

/-- Fixed apology substituted when the agent graph raises. -/
def apology_text : String :=
  "I apologize, I'm having a technical difficulty. Could you repeat that?"

/-- Fallback when the graph result contains no AI message. -/
def no_ai_fallback : String :=
  "I'm sorry, I didn't quite catch that. Could you say that again?"

/-- Reply extraction: the last AI message of the graph result. -/
def extract_reply (gr : GraphRes) : String :=
  match (gr.msgs.filterMap (fun m => match m with
      | GMsg.ai c _ => some c
      | _ => none)).getLast? with
  | some c => c
  | none => no_ai_fallback

/-- Method `ConversationService.chat`: persist the user message, then
build the agent graph — in the source, `build_agent_graph` (line 119) is
called OUTSIDE the `try` that starts at line 136, so an exception raised
while building escapes `chat` uncaught, modelled as `.error` carrying the
session state at escape (the user row still pending, nothing committed or
rolled back) — then run the graph inside the `try`: on a run exception
substitute the apology, roll back, and continue; finally persist the
assistant reply and commit in a fresh attempt whose own failure is rolled
back and swallowed. -/
def chat (buildOutcome : Except Unit Unit) (runOutcome : Except Unit GraphRes)
    (saveOk : Bool) (db : DbState) (message : String) :
    Except DbState (TurnResult × DbState) :=
  let db1 := save_message db "user" message
  match buildOutcome with
  | .error _ => .error db1
  | .ok _ =>
    let step :=
      match runOutcome with
      | .ok gr => (extract_reply gr, gr.tools_used, gr.call_active, db1)
      | .error _ => (apology_text, ([] : List String), true, rollback_db db1)
    let db3 :=
      if saveOk then commit_db (save_message step.2.2.2 "assistant" step.1)
      else rollback_db step.2.2.2
    .ok (⟨step.1, step.2.1, step.2.2.1⟩, db3)

/-! ## `create_reservation` overlap protection

Times are minutes; dates are opaque numbers.  `create_reservation` scans
the company's reservable tables in capacity order, skips tables that have
an active reservation on the same date whose window
`[start, start + duration)` (duration fixed at 90) overlaps the requested
window, books the first conflict-free table with status `confirmed`, and
fails when no table remains. -/

/-- One `tables` row (the columns the tool reads). -/
structure RTable where
  id : Nat
  status : String
  is_active : Bool
  is_reservable : Bool
  capacity_max : Nat

/-- One `reservations` row (the columns the conflict check reads). -/
structure Resv where
  table_id : Nat
  rdate : Nat
  start : Nat
  dur : Nat
  status : String
deriving DecidableEq

/-- Statuses the conflict queries treat as blocking. -/
def active_statuses : List String :=
  ["pending", "confirmed", "checked_in", "seated"]

/-- Per-table conflict scan: same table and date, active status, and
`ex_start < new_end and new_start < ex_end`. -/
def has_conflict (rs : List Resv) (tid d ns ne : Nat) : Bool :=
  rs.any (fun c =>
    c.table_id == tid && c.rdate == d &&
      decide (c.status ∈ active_statuses) &&
      decide (c.start < ne) && decide (ns < c.start + c.dur))

/-- Insertion sort by `capacity_max` (the SQL `ORDER BY capacity_max
ASC`). -/
def insert_by_cap (t : RTable) : List RTable → List RTable
  | [] => [t]
  | u :: us =>
    if t.capacity_max ≤ u.capacity_max then t :: u :: us
    else u :: insert_by_cap t us

/-- Sort a table list by ascending capacity. -/
def sort_by_cap : List RTable → List RTable
  | [] => []
  | t :: ts => insert_by_cap t (sort_by_cap ts)

/-- Table filter of the tool's SQL query. -/
def table_eligible (party : Nat) (t : RTable) : Bool :=
  t.status == "available" && t.is_active && t.is_reservable &&
    decide (party ≤ t.capacity_max)

/-- Tool `create_reservation` (its booking core): pick the first
conflict-free eligible table, insert a confirmed 90-minute reservation and
commit, or fail with no state change. -/
def create_reservation (tables : List RTable) (rs : List Resv)
    (d start party : Nat) : Option Nat × List Resv :=
  let ne := start + 90
  let cands := sort_by_cap (tables.filter (table_eligible party))
  match cands.find? (fun t => !has_conflict rs t.id d start ne) with
  | none => (none, rs)
  | some t => (some t.id, rs ++ [⟨t.id, d, start, 90, "confirmed"⟩])

/-! ## List lemmas for the hallucination filter -/

theorem inf_dropWhile {α : Type} (p : α → Bool) {e l : List α} (he : e ≠ [])
    (hh : ∀ c, e.head? = some c → p c = false) (h : e <:+: l) :
    e <:+: l.dropWhile p := by
  induction l with
  | nil =>
    rcases h with ⟨s, t, hst⟩
    simp only [List.append_eq_nil] at hst
    exact absurd hst.1.2 he
  | cons a t ih =>
    rw [List.infix_cons_iff] at h
    by_cases hpa : p a = true
    · rw [List.dropWhile_cons, if_pos hpa]
      cases h with
      | inl hpre =>
        cases e with
        | nil => exact absurd rfl he
        | cons x xs =>
          have hx : x = a := (List.cons_prefix_cons.mp hpre).1
          have hfx := hh x rfl
          rw [hx, hpa] at hfx
          exact absurd hfx (by simp)
      | inr hinf => exact ih hinf
    · rw [List.dropWhile_cons, if_neg hpa]
      rw [← List.infix_cons_iff] at h
      exact h

theorem inf_reverse {α : Type} {e l : List α} (h : e <:+: l) :
    e.reverse <:+: l.reverse := by
  rcases h with ⟨s, t, rfl⟩
  exact ⟨t.reverse, s.reverse, by simp⟩

theorem inf_rdropW {α : Type} (p : α → Bool) {e l : List α} (he : e ≠ [])
    (hl : ∀ c, e.getLast? = some c → p c = false) (h : e <:+: l) :
    e <:+: rdropW p l := by
  have h1 : e.reverse <:+: l.reverse := inf_reverse h
  have he' : e.reverse ≠ [] := by simpa using he
  have hh : ∀ c, e.reverse.head? = some c → p c = false := by
    intro c hc
    exact hl c (by rwa [List.head?_reverse] at hc)
  have h2 := inf_dropWhile p he' hh h1
  have h3 := inf_reverse h2
  simpa [rdropW] using h3

theorem inf_map {α β : Type} (f : α → β) {e l : List α} (h : e <:+: l) :
    e.map f <:+: l.map f := by
  rcases h with ⟨s, t, rfl⟩
  exact ⟨s.map f, t.map f, by simp⟩

theorem containsSub_iff {sub l : List Char} :
    containsSub sub l = true ↔ sub <:+: l := by
  induction l with
  | nil =>
    simp [containsSub, List.isEmpty_iff]
  | cons c t ih =>
    simp [containsSub, List.infix_cons_iff, ih,
      List.isPrefixOf_iff_prefix]

theorem dropWhile_dropWhile {α : Type} (p : α → Bool) (l : List α) :
    (l.dropWhile p).dropWhile p = l.dropWhile p := by
  induction l with
  | nil => simp
  | cons a t ih =>
    by_cases hpa : p a = true
    · rw [List.dropWhile_cons, if_pos hpa, ih]
    · rw [List.dropWhile_cons, if_neg hpa, List.dropWhile_cons, if_neg hpa]

theorem rdropW_rdropW {α : Type} (p : α → Bool) (l : List α) :
    rdropW p (rdropW p l) = rdropW p l := by
  simp [rdropW, dropWhile_dropWhile]

theorem head_dropWhile_false {α : Type} (p : α → Bool) (l : List α) :
    ∀ c, (l.dropWhile p).head? = some c → p c = false := by
  induction l with
  | nil => intro c hc; simp at hc
  | cons a t ih =>
    intro c hc
    by_cases hpa : p a = true
    · rw [List.dropWhile_cons, if_pos hpa] at hc
      exact ih c hc
    · rw [List.dropWhile_cons, if_neg hpa] at hc
      simp at hc
      rw [← hc]
      exact Bool.eq_false_iff.mpr hpa

theorem dropWhile_eq_self_of_head {α : Type} (p : α → Bool) (l : List α)
    (h : ∀ c, l.head? = some c → p c = false) : l.dropWhile p = l := by
  cases l with
  | nil => simp
  | cons a t =>
    have := h a rfl
    rw [List.dropWhile_cons, if_neg (by simp [this])]

theorem rdropW_sfx {α : Type} (p : α → Bool) (l : List α) :
    ∃ t, l = rdropW p l ++ t := by
  have h : ∃ s, l.reverse = s ++ l.reverse.dropWhile p := by
    induction l.reverse with
    | nil => exact ⟨[], rfl⟩
    | cons a u ih =>
      by_cases hpa : p a = true
      · rcases ih with ⟨s, hs⟩
        refine ⟨a :: s, ?_⟩
        rw [List.dropWhile_cons, if_pos hpa, List.cons_append, ← hs]
      · exact ⟨[], by rw [List.dropWhile_cons, if_neg hpa, List.nil_append]⟩
  rcases h with ⟨s, hs⟩
  refine ⟨s.reverse, ?_⟩
  have := congrArg List.reverse hs
  simpa [rdropW] using this

theorem strip_idem (s : List Char) : pyStrip (pyStrip s) = pyStrip s := by
  have hmid : (pyStrip s).dropWhile pyIsSpace = pyStrip s := by
    rcases rdropW_sfx pyIsSpace (s.dropWhile pyIsSpace) with ⟨t, ht⟩
    apply dropWhile_eq_self_of_head
    intro c hc
    apply head_dropWhile_false pyIsSpace s c
    unfold pyStrip at hc
    cases hu : rdropW pyIsSpace (s.dropWhile pyIsSpace) with
    | nil => rw [hu] at hc; simp at hc
    | cons x xs =>
      rw [hu] at hc
      simp at hc
      rw [ht, hu, List.cons_append]
      simp [hc]
  show rdropW pyIsSpace ((pyStrip s).dropWhile pyIsSpace) = pyStrip s
  rw [hmid]
  show rdropW pyIsSpace (rdropW pyIsSpace (s.dropWhile pyIsSpace)) = _
  rw [rdropW_rdropW]
  rfl

/-! ## Claim C8: the hallucination filter -/

theorem goodEntry_all : HALLUCINATION_SUBSTRINGS.all goodEntry = true := by
  decide

/-- Survival of substring entries: a substring-denylist entry that occurs
in `s` also occurs in the normalised form of `s` (it survives strip, lower
and rstrip-dots). -/
theorem subs_infix_norm {e s : List Char} (he : e ∈ HALLUCINATION_SUBSTRINGS)
    (h : e <:+: s) : e <:+: pyNormalize s := by
  have hge : goodEntry e = true := List.all_eq_true.mp goodEntry_all e he
  simp only [goodEntry, Bool.and_eq_true] at hge
  obtain ⟨⟨⟨⟨hne', hhead'⟩, hlast'⟩, hlow'⟩, hdot'⟩ := hge
  have hne : e ≠ [] := by
    intro hcontr; rw [hcontr] at hne'; simp at hne'
  have hhead : ∀ c, e.head? = some c → pyIsSpace c = false := by
    intro c hc; rw [hc] at hhead'; simpa [notSpaceOpt] using hhead'
  have hlast : ∀ c, e.getLast? = some c → pyIsSpace c = false := by
    intro c hc; rw [hc] at hlast'; simpa [notSpaceOpt] using hlast'
  have hdot : ∀ c, e.getLast? = some c → (c == '.') = false := by
    intro c hc; rw [hc] at hdot'; simpa [notDotOpt] using hdot'
  have hlow : e.map pyLowerChar = e := by
    simpa [pyLower] using hlow'
  have h1 : e <:+: s.dropWhile pyIsSpace := inf_dropWhile pyIsSpace hne hhead h
  have h2 : e <:+: pyStrip s := inf_rdropW pyIsSpace hne hlast h1
  have h3 : e <:+: pyLower (pyStrip s) := by
    have hm := inf_map pyLowerChar h2
    rwa [hlow] at hm
  exact inf_rdropW (fun c => c == '.') hne hdot h3

/-- Claim C8: `is_hallucination` returns true on every exact-denylist
entry, on every string containing a substring-denylist entry, and on every
string whose normalised form has length ≤ 3; it returns false on the
coherent sentence "I'd like a table for four on Saturday"; and the checks
are applied in the order exact match, length cutoff, substring, regex. -/
theorem c8_is_hallucination_spec :
    (∀ e ∈ HALLUCINATION_EXACT, is_hallucination e = true) ∧
    (∀ s e, e ∈ HALLUCINATION_SUBSTRINGS → e <:+: s →
      is_hallucination s = true) ∧
    (∀ s, (pyNormalize s).length ≤ 3 → is_hallucination s = true) ∧
    is_hallucination "I'd like a table for four on Saturday".data = false ∧
    (∀ s, is_hallucination s =
      (if HALLUCINATION_EXACT.contains (pyNormalize s) then true
       else if (pyNormalize s).length ≤ 3 then true
       else if HALLUCINATION_SUBSTRINGS.any
           (fun sub => containsSub sub (pyNormalize s)) then true
       else regexAny (pyStrip s))) := by
  refine ⟨by decide, ?_, ?_, by decide, fun s => rfl⟩
  · intro s e he h
    have hsub : HALLUCINATION_SUBSTRINGS.any
        (fun sub => containsSub sub (pyNormalize s)) = true :=
      List.any_eq_true.mpr ⟨e, he, containsSub_iff.mpr (subs_infix_norm he h)⟩
    simp [is_hallucination, hsub]
  · intro s hlen
    simp [is_hallucination, hlen]

/-- Witness for C8: concrete instantiations of each hypothesis-bearing
conjunct. -/
theorem c8_is_hallucination_spec_witness :
    is_hallucination "thank you".data = true ∧
    is_hallucination "No copyright intended".data = true ∧
    is_hallucination "uhh".data = true :=
  ⟨c8_is_hallucination_spec.1 "thank you".data (by decide),
   c8_is_hallucination_spec.2.1 "No copyright intended".data "copyright".data
     (by decide) (by decide),
   c8_is_hallucination_spec.2.2.1 "uhh".data (by decide)⟩

/-! ## Claim C10: `VoiceService.transcribe` -/

theorem is_hallucination_strip (s : List Char) :
    is_hallucination (pyStrip s) = is_hallucination s := by
  have h1 : pyNormalize (pyStrip s) = pyNormalize s := by
    unfold pyNormalize
    rw [strip_idem]
  unfold is_hallucination
  rw [h1, strip_idem]

/-- Claim C10 (amended): the language of a transcription result equals
the caller's language argument when a NON-EMPTY one is given; an absent
or empty (Python-falsy) argument yields the fixed default "en"; the
language never depends on the backend response (in particular not on the
backend's detected language); and the text is blanked exactly when the
raw backend transcription is a hallucination. -/
theorem c10_transcribe_language_and_filter :
    ∀ (resp : WhisperResp) (lang : Option String),
      (∀ l, lang = some l → l ≠ "" → (transcribe resp lang).language = l) ∧
      (lang = none → (transcribe resp lang).language = DEFAULT_LANGUAGE) ∧
      (lang = some "" → (transcribe resp lang).language = DEFAULT_LANGUAGE) ∧
      (∀ resp' : WhisperResp,
        (transcribe resp lang).language = (transcribe resp' lang).language) ∧
      (is_hallucination resp.text = true → (transcribe resp lang).text = []) ∧
      (is_hallucination resp.text = false →
        (transcribe resp lang).text = pyStrip resp.text) := by
  intro resp lang
  refine ⟨?_, ?_, ?_, ?_, ?_, ?_⟩
  · intro l hl hne
    simp [transcribe, hl, hne]
  · intro hl
    simp [transcribe, hl]
  · intro hl
    simp [transcribe, hl]
  · intro resp'
    cases lang <;> simp [transcribe]
  · intro hh
    simp [transcribe, is_hallucination_strip, hh]
  · intro hh
    simp [transcribe, is_hallucination_strip, hh]

/-- Counterexample for C10 as stated: a caller-supplied EMPTY language
argument is "given" but is not returned — `language or DEFAULT_LANGUAGE`
replaces it with "en". -/
theorem c10_counterexample :
    (transcribe ⟨"A table for two".data, "de"⟩ (some "")).language = "en" ∧
    (transcribe ⟨"A table for two".data, "de"⟩ (some "")).language ≠ "" := by
  exact ⟨rfl, by decide⟩

/-- Witness for C10: a concrete hallucinated transcription with no
language argument yields empty text and language "en"; a non-empty
argument is returned as is; an empty argument falls back to "en". -/
theorem c10_transcribe_language_and_filter_witness :
    (transcribe ⟨"Thank you.".data, "tr"⟩ none).language = DEFAULT_LANGUAGE ∧
    (transcribe ⟨"Thank you.".data, "tr"⟩ none).text = [] ∧
    (transcribe ⟨"A table at seven".data, "de"⟩ (some "fr")).language = "fr" ∧
    (transcribe ⟨"A table at seven".data, "de"⟩ (some "")).language =
      DEFAULT_LANGUAGE :=
  ⟨(c10_transcribe_language_and_filter ⟨"Thank you.".data, "tr"⟩ none).2.1 rfl,
   (c10_transcribe_language_and_filter
     ⟨"Thank you.".data, "tr"⟩ none).2.2.2.2.1 (by decide),
   (c10_transcribe_language_and_filter ⟨"A table at seven".data, "de"⟩
     (some "fr")).1 "fr" rfl (by decide),
   (c10_transcribe_language_and_filter ⟨"A table at seven".data, "de"⟩
     (some "")).2.2.1 rfl⟩

/-! ## Claim C1: loop bound and termination -/

theorem specialist_loop_calls_le (oracle : Nat → LLMResp) (tools : ToolReg) :
    ∀ (fuel k : Nat) (msgs : List GMsg) (used : List String),
      (specialist_loop oracle tools fuel k msgs used).calls ≤ k + fuel + 1 := by
  intro fuel
  induction fuel with
  | zero => intro k msgs used; simp [specialist_loop]
  | succ n ih =>
    intro k msgs used
    rw [specialist_loop]
    by_cases h : (oracle k).toolCalls.isEmpty = true
    · simp only [h, if_pos]
      omega
    · simp only [h]
      rw [if_neg (by simp [h])]
      have := ih (k + 1)
        (process_tool_calls tools (oracle k).toolCalls
          (msgs ++ [GMsg.ai (oracle k).content (oracle k).toolCalls]) used).1
        (process_tool_calls tools (oracle k).toolCalls
          (msgs ++ [GMsg.ai (oracle k).content (oracle k).toolCalls]) used).2
      omega

theorem specialist_loop_reply_nonempty (oracle : Nat → LLMResp)
    (tools : ToolReg) (ho : ∀ i, (oracle i).content ≠ "") :
    ∀ (fuel k : Nat) (msgs : List GMsg) (used : List String),
      (specialist_loop oracle tools fuel k msgs used).reply ≠ "" := by
  intro fuel
  induction fuel with
  | zero => intro k msgs used; simpa [specialist_loop] using ho k
  | succ n ih =>
    intro k msgs used
    rw [specialist_loop]
    by_cases h : (oracle k).toolCalls.isEmpty = true
    · simp only [h, if_pos]
      exact ho k
    · simp only [h]
      rw [if_neg (by simp [h])]
      exact ih (k + 1) _ _

/-- Claim C1 (amended): a specialist activation with ceiling `N` issues at
most `N + 1` completion calls and terminates; its reply is the content of
the final completion response, hence non-empty whenever the backend never
returns empty text.  (The code itself never checks the reply for
emptiness, see `c1_counterexample`.)  `N` is 5 for the reservation
specialist, 3 for the information specialist and 6 for the internal
assistant. -/
theorem c1_specialist_loop_bounded :
    ∀ (oracle : Nat → LLMResp) (tools : ToolReg) (N : Nat) (msgs : List GMsg),
      (specialist_loop oracle tools N 0 msgs []).calls ≤ N + 1 ∧
      ((∀ i, (oracle i).content ≠ "") →
        (specialist_loop oracle tools N 0 msgs []).reply ≠ "") := by
  intro oracle tools N msgs
  refine ⟨?_, fun ho => specialist_loop_reply_nonempty oracle tools ho N 0 msgs []⟩
  have h := specialist_loop_calls_le oracle tools N 0 msgs []
  omega

/-- Counterexample for C1 as stated: against a backend whose responses
carry empty text, the reservation loop (ceiling 5) terminates with an
EMPTY reply — the claim's "terminates with a non-empty reply text" is
false. -/
theorem c1_counterexample :
    (specialist_loop emptyOracle [] reservation_max_iterations 0 [] []).reply
      = "" := by rfl

/-- Witness for C1 at the reservation ceiling. -/
theorem c1_specialist_loop_bounded_witness :
    (specialist_loop okOracle [] reservation_max_iterations 0 [] []).calls
        ≤ reservation_max_iterations + 1 ∧
    (specialist_loop okOracle [] reservation_max_iterations 0 [] []).reply
        ≠ "" := by
  have h := c1_specialist_loop_bounded okOracle [] reservation_max_iterations []
  exact ⟨h.1, h.2 (fun i => by simp [okOracle])⟩

/-! ## Claim C6: tool dispatch containment -/

/-- Message effect of the tool-call for-loop, as one equation. -/
theorem process_tool_calls_msgs (tools : ToolReg) :
    ∀ (tcs : List ToolCall) (msgs : List GMsg) (used : List String),
      (process_tool_calls tools tcs msgs used).1 =
        msgs ++ tcs.map (fun tc => GMsg.tool (dispatch_one tools tc).1 tc.id) := by
  intro tcs
  induction tcs with
  | nil => intro msgs used; simp [process_tool_calls]
  | cons tc rest ih =>
    intro msgs used
    simp [process_tool_calls, ih]

/-- Claim C6: tool dispatch inside a specialist iteration never escapes
the loop: every requested call — registered or not, raising or not —
contributes exactly one appended tool message; an unregistered name
produces the textual "Unknown tool" result and a raising implementation
the textual "Error executing" result. -/
theorem c6_tool_dispatch_contained :
    ∀ (tools : ToolReg) (tcs : List ToolCall) (msgs : List GMsg)
      (used : List String),
      (process_tool_calls tools tcs msgs used).1 =
        msgs ++ tcs.map (fun tc => GMsg.tool (dispatch_one tools tc).1 tc.id) ∧
      (∀ tc : ToolCall, List.lookup tc.name tools = none →
        dispatch_one tools tc = ("Unknown tool: " ++ tc.name, false)) ∧
      (∀ (tc : ToolCall) (f : String → Except String String) (e : String),
        List.lookup tc.name tools = some f → f tc.args = .error e →
        dispatch_one tools tc =
          ("Error executing " ++ tc.name ++ ": " ++ e, false)) := by
  intro tools tcs msgs used
  refine ⟨process_tool_calls_msgs tools tcs msgs used, ?_, ?_⟩
  · intro tc h
    simp [dispatch_one, h]
  · intro tc f e hf he
    simp [dispatch_one, hf, he]

/-- Witness for C6: the unknown-tool and raising-tool cases at concrete
inputs. -/
theorem c6_tool_dispatch_contained_witness :
    dispatch_one demoTools ⟨"nope", "x", "1"⟩ =
      ("Unknown tool: nope", false) ∧
    dispatch_one demoTools ⟨"boom", "y", "2"⟩ =
      ("Error executing boom: boom", false) :=
  ⟨(c6_tool_dispatch_contained demoTools [] [] []).2.1 ⟨"nope", "x", "1"⟩ rfl,
   (c6_tool_dispatch_contained demoTools [] [] []).2.2 ⟨"boom", "y", "2"⟩
     demoBoom "boom" rfl rfl⟩

/-! ## Claim C9: `tools_used` stays within the registry -/

theorem process_tool_calls_used_mem (tools : ToolReg) :
    ∀ (tcs : List ToolCall) (msgs : List GMsg) (used : List String)
      (n : String), n ∈ (process_tool_calls tools tcs msgs used).2 →
      n ∈ used ∨ (List.lookup n tools).isSome = true := by
  intro tcs
  induction tcs with
  | nil => intro msgs used n h; exact Or.inl h
  | cons tc rest ih =>
    intro msgs used n h
    rw [process_tool_calls] at h
    rcases ih _ _ n h with hin | hsome
    · by_cases hrec : (dispatch_one tools tc).2 = true
      · rw [if_pos hrec] at hin
        rcases List.mem_append.mp hin with h1 | h2
        · exact Or.inl h1
        · right
          have hn : n = tc.name := by simpa using h2
          rw [hn]
          unfold dispatch_one at hrec
          cases hl : List.lookup tc.name tools with
          | none => rw [hl] at hrec; simp at hrec
          | some f => simp [hl]
      · rw [if_neg hrec] at hin
        exact Or.inl hin
    · exact Or.inr hsome

theorem specialist_loop_used_mem (oracle : Nat → LLMResp) (tools : ToolReg) :
    ∀ (fuel k : Nat) (msgs : List GMsg) (used : List String) (n : String),
      n ∈ (specialist_loop oracle tools fuel k msgs used).used →
      n ∈ used ∨ (List.lookup n tools).isSome = true := by
  intro fuel
  induction fuel with
  | zero =>
    intro k msgs used n h
    exact Or.inl (by simpa [specialist_loop] using h)
  | succ m ih =>
    intro k msgs used n h
    rw [specialist_loop] at h
    by_cases he : (oracle k).toolCalls.isEmpty = true
    · rw [if_pos (by simpa using he)] at h
      exact Or.inl (by simpa using h)
    · rw [if_neg (by simpa using he)] at h
      rcases ih (k + 1) _ _ n h with hin | hsome
      · exact process_tool_calls_used_mem tools _ _ _ n hin
      · exact Or.inr hsome

/-- Claim C9: a specialist activation started (as
`ConversationService.chat` starts every turn) with an empty `tools_used`
list ends the turn with a `tools_used` list containing only names
registered in the turn's tool map; in particular it never carries names
over from a previous turn. -/
theorem c9_tools_used_registered :
    ∀ (oracle : Nat → LLMResp) (tools : ToolReg) (N : Nat) (msgs : List GMsg),
      ∀ n ∈ (specialist_loop oracle tools N 0 msgs []).used,
        (List.lookup n tools).isSome = true := by
  intro oracle tools N msgs n h
  rcases specialist_loop_used_mem oracle tools N 0 msgs [] n h with hin | hsome
  · exact absurd hin (List.not_mem_nil n)
  · exact hsome

/-- Witness for C9: a concrete run that used the echo tool. -/
theorem c9_tools_used_registered_witness :
    (List.lookup "echo" demoTools).isSome = true :=
  c9_tools_used_registered demoOracle demoTools 5 [] "echo" (by decide)

/-! ## Claim C7: routing decode -/

theorem decode_eq_spec (jl : List Char → Option JsonObj) (r : SupResp) :
    supervisor_decode jl r = spec_router_decode jl r := by
  unfold supervisor_decode spec_router_decode
  cases htc : r.toolCalls with
  | cons tc rest => rfl
  | nil =>
    by_cases hc : r.content = ""
    · rw [if_pos hc, hc]
      show _ = (match (braceSearch (pyStrip "".data)).bind jl with
        | some obj => RoutingDecision.mk (obj.route.getD "self")
            (obj.message.getD (String.mk (pyStrip "".data)))
        | none => ⟨"self", String.mk (pyStrip "".data)⟩)
      rfl
    · rw [if_neg hc]
      cases hb : braceSearch (pyStrip r.content.data) with
      | none => simp [hb]
      | some m =>
        cases hj : jl m with
        | none => simp [hb, hj]
        | some obj => simp [hb, hj]

/-- Claim C7: the supervisor decode is total, equals the spec's
three-stage decoder for every backend response and every behaviour of the
JSON library, and resolves to route `self` whenever neither a structured
decision nor a parsable JSON fragment is available. -/
theorem c7_decode_three_stage :
    ∀ (jsonLoads : List Char → Option JsonObj) (r : SupResp),
      supervisor_decode jsonLoads r = spec_router_decode jsonLoads r ∧
      (r.toolCalls = [] →
        (braceSearch (pyStrip r.content.data)).bind jsonLoads = none →
        (supervisor_decode jsonLoads r).route = "self") := by
  intro jl r
  refine ⟨decode_eq_spec jl r, ?_⟩
  intro htc hb
  rw [decode_eq_spec jl r]
  unfold spec_router_decode
  rw [htc]
  simp [hb]

/-- Witness for C7: free text with no JSON fragment decodes to `self`. -/
theorem c7_decode_three_stage_witness :
    (supervisor_decode jlNone ⟨[], "Hello there"⟩).route = "self" :=
  (c7_decode_three_stage jlNone ⟨[], "Hello there"⟩).2 rfl rfl

/-! ## Claim C4: route semantics -/

/-- Claim C4 (amended): `self` and `farewell` make the Router's message
the final reply — except that an empty message is replaced by a fixed
default greeting/farewell — with `call_active` false exactly for
`farewell`; `reservation`/`information` append nothing and hand the turn
to the specialist, which alone produces the reply; any other route behaves
as `self`. -/
theorem c4_route_semantics :
    ∀ (d : RoutingDecision) (sp : String),
      (d.route = "farewell" →
        run_turn d sp =
          ⟨if d.message = "" then farewell_default else d.message,
            false, false⟩) ∧
      (d.route = "reservation" →
        run_turn d sp = ⟨sp, true, true⟩ ∧
          (supervisor_step d).appended = []) ∧
      (d.route = "information" →
        run_turn d sp = ⟨sp, true, true⟩ ∧
          (supervisor_step d).appended = []) ∧
      (d.route ≠ "reservation" → d.route ≠ "information" →
        d.route ≠ "farewell" →
        run_turn d sp =
          ⟨if d.message = "" then self_default else d.message,
            true, false⟩) := by
  intro d sp
  refine ⟨?_, ?_, ?_, ?_⟩
  · intro h
    simp [run_turn, supervisor_step, route_supervisor, h]
  · intro h
    simp [run_turn, supervisor_step, route_supervisor, h]
  · intro h
    simp [run_turn, supervisor_step, route_supervisor, h]
  · intro h1 h2 h3
    simp [run_turn, supervisor_step, route_supervisor, h1, h2, h3]

/-- Counterexample for C4 as stated: for the decision `route="self"`,
`message=""` the turn's reply is the fixed default greeting, not the
Router's (empty) message — so "the Router's own message is the turn's
final reply" is false. -/
theorem c4_counterexample :
    (run_turn ⟨"self", ""⟩ "").reply ≠ (RoutingDecision.mk "self" "").message
      := by decide

/-- Witness for C4 at concrete decisions for each route. -/
theorem c4_route_semantics_witness :
    run_turn ⟨"farewell", "Bye!"⟩ "ignored" = ⟨"Bye!", false, false⟩ ∧
    run_turn ⟨"reservation", ""⟩ "Booked." = ⟨"Booked.", true, true⟩ ∧
    run_turn ⟨"information", ""⟩ "We open at 9." = ⟨"We open at 9.", true, true⟩ ∧
    run_turn ⟨"banana", "Hi!"⟩ "ignored" = ⟨"Hi!", true, false⟩ := by
  refine ⟨?_, ?_, ?_, ?_⟩
  · have h := (c4_route_semantics ⟨"farewell", "Bye!"⟩ "ignored").1 rfl
    simpa using h
  · exact ((c4_route_semantics ⟨"reservation", ""⟩ "Booked.").2.1 rfl).1
  · exact ((c4_route_semantics ⟨"information", ""⟩ "We open at 9.").2.2.1 rfl).1
  · have h := (c4_route_semantics ⟨"banana", "Hi!"⟩ "ignored").2.2.2
      (by decide) (by decide) (by decide)
    simpa using h

/-! ## Claim C2: history replay -/

/-- Claim C2 failing input: with 51 persisted entries, the code replays
the 50 OLDEST entries and drops the newest assistant message, while the
claim's "last 50" reading keeps it; the role restriction itself holds
(tool and system rows are never replayed). -/
theorem c2_history_takes_first_not_last :
    GMsg.ai "latest" [] ∉ get_conversation_history demo_rows history_limit ∧
    GMsg.ai "latest" [] ∈ claimed_history demo_rows history_limit ∧
    get_conversation_history demo_rows history_limit =
      List.replicate 50 (GMsg.human "early") ∧
    get_conversation_history
      [⟨"user", "hi"⟩, ⟨"tool", "t"⟩, ⟨"system", "s"⟩, ⟨"assistant", "ok"⟩]
      history_limit = [GMsg.human "hi", GMsg.ai "ok" []] := by
  refine ⟨by decide, by decide, by decide, by decide⟩

/-! ## Claim C3: turn orchestrator error containment -/

/-- Claim C3 (amended): when RUNNING the orchestration graph raises an
uncaught exception, the turn still completes and returns a TurnResult
whose reply is the fixed apology (with empty tools and the call kept
active); the partial write is rolled back; when the follow-up persistence
succeeds, exactly the assistant apology row is committed in a fresh
transaction; and when it fails, nothing is committed but the same
TurnResult still reaches the caller.  An exception raised while BUILDING
the graph, by contrast, escapes `chat` uncaught with no TurnResult (see
`c3_counterexample`). -/
theorem c3_error_containment :
    ∀ (saveOk : Bool) (db : DbState) (msg : String)
      (runOutcome : Except Unit GraphRes),
      (saveOk = true →
        chat (.ok ()) (.error ()) saveOk db msg =
          .ok (⟨apology_text, [], true⟩,
            ⟨db.committed ++ [⟨"assistant", apology_text⟩], []⟩)) ∧
      (saveOk = false →
        chat (.ok ()) (.error ()) saveOk db msg =
          .ok (⟨apology_text, [], true⟩, ⟨db.committed, []⟩)) ∧
      (chat (.error ()) runOutcome saveOk db msg =
        .error (save_message db "user" msg)) := by
  intro saveOk db msg runOutcome
  refine ⟨?_, ?_, ?_⟩
  · intro h
    rw [h]
    rfl
  · intro h
    rw [h]
    rfl
  · rfl

/-- Counterexample for C3 as stated: `build_agent_graph`
(conversation_service.py line 119) is called outside the `try` at line
136, so an exception while building the graph escapes `chat` with no
TurnResult at all — the turn does not complete with an apologetic reply;
only the uncommitted user row is left pending on the session. -/
theorem c3_counterexample :
    chat (.error ()) (.ok ⟨[], [], true⟩) true ⟨[], []⟩ "hi" =
      .error ⟨[], [⟨"user", "hi"⟩]⟩ := by rfl

/-- Witness for C3: both persistence outcomes at a concrete state. -/
theorem c3_error_containment_witness :
    chat (.ok ()) (.error ()) true ⟨[], []⟩ "hi" =
      .ok (⟨apology_text, [], true⟩, ⟨[⟨"assistant", apology_text⟩], []⟩) ∧
    chat (.ok ()) (.error ()) false ⟨[], []⟩ "hi" =
      .ok (⟨apology_text, [], true⟩, ⟨[], []⟩) :=
  ⟨by simpa using
     (c3_error_containment true ⟨[], []⟩ "hi" (.error ())).1 rfl,
   by simpa using
     (c3_error_containment false ⟨[], []⟩ "hi" (.error ())).2.1 rfl⟩

/-! ## Claim C5: no double booking -/

/-- Claim C5: two sequential `create_reservation` calls against a single
table on the same date: the first succeeds, and the second succeeds
exactly when the half-open 90-minute windows do not overlap. -/
theorem c5_no_double_booking :
    ∀ (cap p1 p2 d s1 s2 : Nat), p1 ≤ cap → p2 ≤ cap →
      (create_reservation [⟨1, "available", true, true, cap⟩] [] d s1 p1).1
        = some 1 ∧
      ((s1 < s2 + 90 ∧ s2 < s1 + 90) →
        (create_reservation [⟨1, "available", true, true, cap⟩]
          (create_reservation [⟨1, "available", true, true, cap⟩] [] d s1 p1).2
          d s2 p2).1 = none) ∧
      (¬(s1 < s2 + 90 ∧ s2 < s1 + 90) →
        (create_reservation [⟨1, "available", true, true, cap⟩]
          (create_reservation [⟨1, "available", true, true, cap⟩] [] d s1 p1).2
          d s2 p2).1 = some 1) := by
  intro cap p1 p2 d s1 s2 h1 h2
  have hfirst : create_reservation [⟨1, "available", true, true, cap⟩] [] d s1 p1
      = (some 1, [⟨1, d, s1, 90, "confirmed"⟩]) := by
    simp [create_reservation, sort_by_cap, insert_by_cap, table_eligible,
      has_conflict, h1]
  refine ⟨by rw [hfirst], ?_, ?_⟩
  · intro hov
    rw [hfirst]
    simp [create_reservation, sort_by_cap, insert_by_cap, table_eligible,
      has_conflict, active_statuses, h2, hov.1, hov.2]
  · intro hov
    rw [hfirst]
    have hd : ¬(s1 < s2 + 90) ∨ ¬(s2 < s1 + 90) := by
      by_contra hcon
      push_neg at hcon
      exact hov ⟨hcon.1, hcon.2⟩
    rcases hd with hl | hr
    · simp [create_reservation, sort_by_cap, insert_by_cap, table_eligible,
        has_conflict, active_statuses, h2, hl]
    · simp [create_reservation, sort_by_cap, insert_by_cap, table_eligible,
        has_conflict, active_statuses, h2, hr]

/-- Witness for C5: at 18:00 vs 19:00 (overlap) the second booking fails;
at 18:00 vs 19:30 (no overlap) it succeeds. -/
theorem c5_no_double_booking_witness :
    (create_reservation [⟨1, "available", true, true, 4⟩]
      (create_reservation [⟨1, "available", true, true, 4⟩] [] 1 1080 2).2
      1 1140 2).1 = none ∧
    (create_reservation [⟨1, "available", true, true, 4⟩]
      (create_reservation [⟨1, "available", true, true, 4⟩] [] 1 1080 2).2
      1 1170 2).1 = some 1 :=
  ⟨(c5_no_double_booking 4 2 2 1 1080 1140 (by decide) (by decide)).2.1
     ⟨by decide, by decide⟩,
   (c5_no_double_booking 4 2 2 1 1080 1170 (by decide) (by decide)).2.2
     (by decide)⟩

end RestaurantAI
